import Mathlib

/-!
Shallow embedding of the NSW FuelCheck API client
(`src/nsw_fuel/client.py`, `src/nsw_fuel/dto.py`, `src/nsw_fuel/const.py`).

JSON payloads are modelled by an inductive `Json` type; Python dictionaries
become association lists, Python exceptions become `Except`, and the
client's network interactions are driven by explicit oracles describing the
responses of the token endpoint and the data endpoint.  Times are rationals
(Python `time.time()` values); no claim here depends on float rounding.
-/

namespace NSWFuel

/-- JSON values as decoded by `response.json()`.  Floating point payload
fields (prices, coordinates) are carried around uninterpreted by the client
code modelled here, so they are kept as raw `Json` leaves and never
arithmetically manipulated; numeric literals in the fixtures we use are
integers. -/
inductive Json where
  | null
  | bool (b : Bool)
  | int (n : Int)
  | str (s : String)
  | arr (xs : List Json)
  | obj (kvs : List (String × Json))
deriving Repr

/-- Key lookup in a JSON object (Python `dict` has unique keys; the first
match is the binding).  Non-objects have no keys. -/
def Json.get? : Json → String → Option Json
  | .obj kvs, k => kvs.lookup k
  | _, _ => none

/-- Python `data.get(k)`: a JSON `null` value decodes to Python `None`,
which `get` cannot distinguish from an absent key. -/
def Json.getPy (j : Json) (k : String) : Option Json :=
  match j.get? k with
  | some .null => none
  | r => r

/-- Python truthiness of a decoded JSON value. -/
def Json.truthy : Json → Bool
  | .null => false
  | .bool b => b
  | .int n => n ≠ 0
  | .str s => ¬s.isEmpty
  | .arr xs => ¬xs.isEmpty
  | .obj kvs => ¬kvs.isEmpty

/-- Python exceptions raised by the deserialization code. -/
inductive PyErr where
  | keyError (k : String)
  | valueError (m : String)
  | typeError (m : String)
deriving Repr, DecidableEq

/-- Python subscript `data[k]` on a decoded JSON value: `KeyError` when the
key is absent from a dict, `TypeError` when the value is not a dict. -/
def jsonIndex (j : Json) (k : String) : Except PyErr Json :=
  match j with
  | .obj kvs =>
    match (Json.obj kvs).get? k with
    | some v => .ok v
    | none => .error (.keyError k)
  | _ => .error (.typeError "object is not subscriptable")

/-- Integer conversion of a decoded string, as Python `int(str)`: optional
surrounding whitespace, an optional sign, then at least one digit. -/
def pyStrToInt : String → Option Int := fun s =>
  let cs := s.toList.dropWhile Char.isWhitespace
  let cs := (cs.reverse.dropWhile Char.isWhitespace).reverse
  let (neg, ds) :=
    match cs with
    | '-' :: rest => (true, rest)
    | '+' :: rest => (false, rest)
    | rest => (false, rest)
  if ds.isEmpty ∨ ¬ds.all Char.isDigit then none
  else
    let n : Nat := ds.foldl (fun acc c => 10 * acc + (c.toNat - '0'.toNat)) 0
    some (if neg then -(n : Int) else (n : Int))

/-- Python `int(x)` on a decoded JSON value: ints pass through, bools
coerce to 0/1, numeric strings are parsed (`ValueError` otherwise), any
other value raises `TypeError`. -/
def pyInt : Json → Except PyErr Int
  | .int n => .ok n
  | .bool b => .ok (if b then 1 else 0)
  | .str s =>
    match pyStrToInt s with
    | some n => .ok n
    | none => .error (.valueError ("invalid literal for int: " ++ s))
  | _ => .error (.typeError "int() argument must be a string or a number")

/-- Result of a successful `datetime.strptime`. -/
structure PyDateTime where
  year : Nat
  month : Nat
  day : Nat
  hour : Nat
  minute : Nat
  second : Nat
deriving Repr, DecidableEq

def digitVal (c : Char) : Nat := c.toNat - '0'.toNat

/-- strptime directive `%d`: regex `3[0-1]|[1-2]\d|0[1-9]|[1-9]| [1-9]`,
alternatives tried left to right at the current position. -/
def matchDay : List Char → Option (Nat × List Char)
  | c1 :: c2 :: rest =>
    if c1 = '3' ∧ (c2 = '0' ∨ c2 = '1') then some (30 + digitVal c2, rest)
    else if (c1 = '1' ∨ c1 = '2') ∧ c2.isDigit then
      some (10 * digitVal c1 + digitVal c2, rest)
    else if c1 = '0' ∧ ('1' ≤ c2 ∧ c2 ≤ '9') then some (digitVal c2, rest)
    else if '1' ≤ c1 ∧ c1 ≤ '9' then some (digitVal c1, c2 :: rest)
    else if c1 = ' ' ∧ ('1' ≤ c2 ∧ c2 ≤ '9') then some (digitVal c2, rest)
    else none
  | [c1] => if '1' ≤ c1 ∧ c1 ≤ '9' then some (digitVal c1, []) else none
  | [] => none

/-- strptime directive `%m`: regex `1[0-2]|0[1-9]|[1-9]`. -/
def matchMonth : List Char → Option (Nat × List Char)
  | c1 :: c2 :: rest =>
    if c1 = '1' ∧ ('0' ≤ c2 ∧ c2 ≤ '2') then some (10 + digitVal c2, rest)
    else if c1 = '0' ∧ ('1' ≤ c2 ∧ c2 ≤ '9') then some (digitVal c2, rest)
    else if '1' ≤ c1 ∧ c1 ≤ '9' then some (digitVal c1, c2 :: rest)
    else none
  | [c1] => if '1' ≤ c1 ∧ c1 ≤ '9' then some (digitVal c1, []) else none
  | [] => none

/-- strptime directive `%Y`: regex `\d\d\d\d` (exactly four digits). -/
def matchYear : List Char → Option (Nat × List Char)
  | c1 :: c2 :: c3 :: c4 :: rest =>
    if c1.isDigit ∧ c2.isDigit ∧ c3.isDigit ∧ c4.isDigit then
      some (1000 * digitVal c1 + 100 * digitVal c2 + 10 * digitVal c3 +
        digitVal c4, rest)
    else none
  | _ => none

/-- strptime directive `%H`: regex `2[0-3]|[0-1]\d|\d`. -/
def matchHour : List Char → Option (Nat × List Char)
  | c1 :: c2 :: rest =>
    if c1 = '2' ∧ ('0' ≤ c2 ∧ c2 ≤ '3') then some (20 + digitVal c2, rest)
    else if (c1 = '0' ∨ c1 = '1') ∧ c2.isDigit then
      some (10 * digitVal c1 + digitVal c2, rest)
    else if c1.isDigit then some (digitVal c1, c2 :: rest)
    else none
  | [c1] => if c1.isDigit then some (digitVal c1, []) else none
  | [] => none

/-- strptime directive `%M`: regex `[0-5]\d|\d`. -/
def matchMinute : List Char → Option (Nat × List Char)
  | c1 :: c2 :: rest =>
    if ('0' ≤ c1 ∧ c1 ≤ '5') ∧ c2.isDigit then
      some (10 * digitVal c1 + digitVal c2, rest)
    else if c1.isDigit then some (digitVal c1, c2 :: rest)
    else none
  | [c1] => if c1.isDigit then some (digitVal c1, []) else none
  | [] => none

/-- strptime directive `%S`: regex `6[0-1]|[0-5]\d|\d` (leap seconds are
matched here and rejected later by the `datetime` constructor). -/
def matchSecond : List Char → Option (Nat × List Char)
  | c1 :: c2 :: rest =>
    if c1 = '6' ∧ (c2 = '0' ∨ c2 = '1') then some (60 + digitVal c2, rest)
    else if ('0' ≤ c1 ∧ c1 ≤ '5') ∧ c2.isDigit then
      some (10 * digitVal c1 + digitVal c2, rest)
    else if c1.isDigit then some (digitVal c1, c2 :: rest)
    else none
  | [c1] => if c1.isDigit then some (digitVal c1, []) else none
  | [] => none

/-- A literal character of the format string. -/
def matchLit (l : Char) : List Char → Option (List Char)
  | c :: rest => if c = l then some rest else none
  | [] => none

/-- Whitespace in a strptime format matches `\s+`. -/
def matchSpaces : List Char → Option (List Char)
  | c :: rest =>
    if c.isWhitespace then some (rest.dropWhile Char.isWhitespace) else none
  | [] => none

/-- Full month names of the C locale, in the alternation order CPython
builds for `%B` (sorted by length, longest first); matching is
case-insensitive.  No name is a prefix of another. -/
def monthNames : List (List Char × Nat) :=
  [("september".toList, 9), ("february".toList, 2), ("november".toList, 11),
   ("december".toList, 12), ("january".toList, 1), ("october".toList, 10),
   ("august".toList, 8), ("march".toList, 3), ("april".toList, 4),
   ("june".toList, 6), ("july".toList, 7), ("may".toList, 5)]

/-- Case-insensitive match of a fixed name at the head of the input. -/
def stripNameCI : List Char → List Char → Option (List Char)
  | [], cs => some cs
  | _ :: _, [] => none
  | p :: ps, c :: cs =>
    if p.toLower = c.toLower then stripNameCI ps cs else none

/-- strptime directive `%B`. -/
def matchMonthName (cs : List Char) : Option (Nat × List Char) :=
  go monthNames
where
  go : List (List Char × Nat) → Option (Nat × List Char)
    | [] => none
    | (nm, v) :: rest =>
      match stripNameCI nm cs with
      | some tail => some (v, tail)
      | none => go rest

/-- Days in a month, as validated by the `datetime` constructor. -/
def daysInMonth (year month : Nat) : Nat :=
  if month = 2 then
    if year % 4 = 0 ∧ (year % 100 ≠ 0 ∨ year % 400 = 0) then 29 else 28
  else if month = 4 ∨ month = 6 ∨ month = 9 ∨ month = 11 then 30
  else 31

/-- Validation performed by the `datetime` constructor on the fields
recovered by the regex match (`MINYEAR = 1`; leap seconds rejected). -/
def validDateTime (d : PyDateTime) : Bool :=
  1 ≤ d.year ∧ d.day ≤ daysInMonth d.year d.month ∧ d.second ≤ 59

/-- `datetime.strptime(s, "%d/%m/%Y %H:%M:%S")` (the whole string must be
consumed; `none` models the `ValueError`). -/
def strptimeDMYHMS (s : String) : Option PyDateTime := do
  let cs := s.toList
  let (d, cs) ← matchDay cs
  let cs ← matchLit '/' cs
  let (m, cs) ← matchMonth cs
  let cs ← matchLit '/' cs
  let (y, cs) ← matchYear cs
  let cs ← matchSpaces cs
  let (hh, cs) ← matchHour cs
  let cs ← matchLit ':' cs
  let (mi, cs) ← matchMinute cs
  let cs ← matchLit ':' cs
  let (ss, cs) ← matchSecond cs
  if cs.isEmpty then
    let dt : PyDateTime := ⟨y, m, d, hh, mi, ss⟩
    if validDateTime dt then some dt else none
  else none

/-- `datetime.strptime(s, "%Y-%m-%d %H:%M:%S")`. -/
def strptimeYMDHMS (s : String) : Option PyDateTime := do
  let cs := s.toList
  let (y, cs) ← matchYear cs
  let cs ← matchLit '-' cs
  let (m, cs) ← matchMonth cs
  let cs ← matchLit '-' cs
  let (d, cs) ← matchDay cs
  let cs ← matchSpaces cs
  let (hh, cs) ← matchHour cs
  let cs ← matchLit ':' cs
  let (mi, cs) ← matchMinute cs
  let cs ← matchLit ':' cs
  let (ss, cs) ← matchSecond cs
  if cs.isEmpty then
    let dt : PyDateTime := ⟨y, m, d, hh, mi, ss⟩
    if validDateTime dt then some dt else none
  else none

/-- `datetime.strptime(s, "%Y-%m-%d")` (time fields default to 0). -/
def strptimeYMD (s : String) : Option PyDateTime := do
  let cs := s.toList
  let (y, cs) ← matchYear cs
  let cs ← matchLit '-' cs
  let (m, cs) ← matchMonth cs
  let cs ← matchLit '-' cs
  let (d, cs) ← matchDay cs
  if cs.isEmpty then
    let dt : PyDateTime := ⟨y, m, d, 0, 0, 0⟩
    if validDateTime dt then some dt else none
  else none

/-- `datetime.strptime(s, "%B %Y")` (day defaults to 1, time to 0). -/
def strptimeBY (s : String) : Option PyDateTime := do
  let cs := s.toList
  let (m, cs) ← matchMonthName cs
  let cs ← matchSpaces cs
  let (y, cs) ← matchYear cs
  if cs.isEmpty then
    let dt : PyDateTime := ⟨y, m, 1, 0, 0, 0⟩
    if validDateTime dt then some dt else none
  else none

/-- The typed record produced by `Price.deserialize` (dto.py lines 9-44).
`fuel_type`, `price` and `price_unit` are stored without coercion, so they
stay raw JSON values here. -/
structure PriceT where
  fuel_type : Json
  price : Json
  last_updated : Option PyDateTime
  price_unit : Option Json
  station_code : Option Int
deriving Repr

/-- `Price.deserialize` (dto.py lines 22-44).  `data["lastupdated"]` is read
first under `suppress(ValueError)`, so a missing key (`KeyError`) or a
non-string value (`TypeError` from strptime) propagates while a parse
failure falls through to the second format and finally to `None`; then
`int(data["stationcode"])` when the key is present; then the constructor
arguments `data["fueltype"]`, `data["price"]`, `data.get("priceunit")`. -/
def Price.deserialize (data : Json) : Except PyErr PriceT := do
  let luRaw ← jsonIndex data "lastupdated"
  let luStr ← match luRaw with
    | .str s => Except.ok s
    | _ => Except.error (.typeError "strptime() argument 1 must be str")
  let lastupdated : Option PyDateTime :=
    match strptimeDMYHMS luStr with
    | some d => some d
    | none => strptimeYMDHMS luStr
  let station_code ← match data.get? "stationcode" with
    | some v => (pyInt v).map some
    | none => Except.ok (none : Option Int)
  let fuel_type ← jsonIndex data "fueltype"
  let price ← jsonIndex data "price"
  Except.ok
    { fuel_type := fuel_type
      price := price
      last_updated := lastupdated
      price_unit := data.getPy "priceunit"
      station_code := station_code }

/-- The typed record produced by `Station.deserialize` (dto.py lines
51-76); only `code` is coerced (`int(data["code"])`). -/
structure StationT where
  id : Option Json
  brand : Json
  code : Int
  name : Json
  address : Json
  latitude : Json
  longitude : Json
deriving Repr

/-- `Station.deserialize` (dto.py lines 65-76); constructor arguments are
evaluated in source order: `data.get("stationid")`, `data["brand"]`,
`int(data["code"])`, `data["name"]`, `data["address"]`,
`data["location"]["latitude"]`, `data["location"]["longitude"]`. -/
def Station.deserialize (data : Json) : Except PyErr StationT := do
  let id := data.getPy "stationid"
  let brand ← jsonIndex data "brand"
  let codeRaw ← jsonIndex data "code"
  let code ← pyInt codeRaw
  let name ← jsonIndex data "name"
  let address ← jsonIndex data "address"
  let loc ← jsonIndex data "location"
  let latitude ← jsonIndex loc "latitude"
  let longitude ← jsonIndex loc "longitude"
  Except.ok
    { id := id
      brand := brand
      code := code
      name := name
      address := address
      latitude := latitude
      longitude := longitude }

/-- The `Period` enum (dto.py lines 85-89). -/
inductive Period where
  | day
  | month
  | year
  | week
deriving Repr, DecidableEq

/-- `Period(value)`: enum lookup by value; an unknown value raises
`ValueError`. -/
def Period.ofJson : Json → Except PyErr Period
  | .str "Day" => .ok .day
  | .str "Month" => .ok .month
  | .str "Year" => .ok .year
  | .str "Week" => .ok .week
  | _ => .error (.valueError "not a valid Period")

/-- The typed record produced by `AveragePrice.deserialize` (dto.py lines
113-141).  The `else` branch of the period dispatch is unreachable because
`Period` has exactly the four listed members, so `captured` is always a
parsed datetime. -/
structure AveragePriceT where
  fuel_type : Json
  period : Period
  price : Json
  captured : PyDateTime
deriving Repr

/-- `AveragePrice.deserialize` (dto.py lines 123-141): the strptime format
for `data["Captured"]` is chosen by the period (`%Y-%m-%d` for Day, Week
and Month; `%B %Y` for Year); strptime errors are not suppressed here. -/
def AveragePrice.deserialize (data : Json) : Except PyErr AveragePriceT := do
  let periodRaw ← jsonIndex data "Period"
  let period ← Period.ofJson periodRaw
  let capturedRaw ← jsonIndex data "Captured"
  let capturedStr ← match capturedRaw with
    | .str s => Except.ok s
    | _ => Except.error (.typeError "strptime() argument 1 must be str")
  let captured ← match period with
    | .day | .week | .month =>
      match strptimeYMD capturedStr with
      | some d => Except.ok d
      | none => Except.error (.valueError "time data does not match format")
    | .year =>
      match strptimeBY capturedStr with
      | some d => Except.ok d
      | none => Except.error (.valueError "time data does not match format")
  let fuel_type ← jsonIndex data "Code"
  let price ← jsonIndex data "Price"
  Except.ok
    { fuel_type := fuel_type
      period := period
      price := price
      captured := captured }

/-- Error taxonomy of client.py lines 51-61.  `auth` is
`NSWFuelApiClientAuthError`, `conn` is `NSWFuelApiClientConnectionError`,
`generic` is the base `NSWFuelApiClientError`; `uncaught` marks a raw
Python exception escaping a spot with no handler (for example the
`ValueError` from `int(result.get("expires_in", 3600))`). -/
inductive ErrKind where
  | auth
  | conn
  | generic
  | uncaught
deriving Repr, DecidableEq

/-- A raised client error; the message is a Json value because the raised
message can be a value taken verbatim from the body's `errorDetails`. -/
structure ClientErr where
  kind : ErrKind
  msg : Json
deriving Repr

/-- The token cache of `FuelCheckClient` (client.py lines 75-76):
`self._token` (a decoded JSON value or `None`) and `self._token_expiry`.
Times are in seconds; the claims only involve integral instants, so they
are modelled as integers. -/
structure ClientState where
  token : Option Json
  tokenExpiry : Int
deriving Repr

/-- Python truthiness of `self._token`. -/
def tokenTruthy : Option Json → Bool
  | none => false
  | some j => j.truthy

/-- Oracle for one exchange with the token endpoint (client.py lines
119-160): a 2xx response with a decoded JSON body, a body that fails to
decode, an HTTP error status (raised by `raise_for_status` as
`ClientResponseError`), or a transport-level `OSError`. -/
inductive TokenFetch where
  | ok (body : Json)
  | badJson
  | httpError (status : Nat) (message : String)
  | netError (message : String)
deriving Repr

/-- Result of `_async_get_token`: the returned value or raised error, the
token cache afterwards, and whether a network exchange happened. -/
structure TokenResult where
  result : Except ClientErr Json
  state : ClientState
  fetched : Bool
deriving Repr

/-- `int(result.get("expires_in", 3600))` (client.py line 166): the
default applies only when the key is absent; a present value is coerced
and may raise. -/
def expiresInCoerce (body : Json) : Except PyErr Int :=
  match body.get? "expires_in" with
  | some v => pyInt v
  | none => .ok 3600

/-- `_async_get_token` (client.py lines 94-174).  The cached token is
reused when it is truthy and `now > self._token_expiry - 60` fails;
otherwise the endpoint is consulted: 401 raises the auth error, other
HTTP/network/decode failures raise the generic error, and a 2xx body is
required to carry `access_token` (cleared cache and generic error when it
does not).  `self._token` is assigned before `expires_in` is coerced, so a
`ValueError` there escapes with the new token cached but the old expiry. -/
def async_get_token (st : ClientState) (now : Int) (ep : TokenFetch) :
    TokenResult :=
  if tokenTruthy st.token ∧ ¬(now > st.tokenExpiry - 60) then
    { result := .ok (st.token.getD .null), state := st, fetched := false }
  else
    match ep with
    | .httpError s m =>
      if s = 401 then
        { result := .error ⟨.auth, .str "Invalid NSW Fuel Check API credentials"⟩
          state := st, fetched := true }
      else
        { result := .error ⟨.generic,
            .str ("Token request failed with status " ++ toString s ++ ": " ++ m)⟩
          state := st, fetched := true }
    | .badJson =>
      { result := .error ⟨.generic, .str "Failed to parse token response JSON"⟩
        state := st, fetched := true }
    | .netError m =>
      { result := .error ⟨.generic,
          .str ("Network error fetching NSW Fuel Check token: " ++ m)⟩
        state := st, fetched := true }
    | .ok body =>
      match body.getPy "access_token" with
      | some tok =>
        match expiresInCoerce body with
        | .ok e =>
          { result := .ok tok, state := ⟨some tok, now + e⟩, fetched := true }
        | .error _ =>
          { result := .error ⟨.uncaught, .str "invalid literal for int"⟩
            state := ⟨some tok, st.tokenExpiry⟩, fetched := true }
      | none =>
        { result := .error ⟨.generic,
            .str "No access_token in NSW Fuel Check token response"⟩
          state := ⟨none, st.tokenExpiry⟩, fetched := true }

/-- One HTTP response of the data endpoint as seen by `_async_request`
after body decoding (client.py lines 238-243): the status, the decoded
body (the raw-text fallback is a `.str`), and the reason phrase. -/
structure HttpResponse where
  status : Nat
  body : Json
  reason : String
deriving Repr

/-- `_extract_error_details` (client.py lines 81-92).  Returns the Python
value of `ed[0].get("description") or ed[0].get("message")` (or the dict
variant); `none` models returning `None`.  A non-dict first list element
raises `AttributeError` (modelled as `typeError`), which the caller's
blanket handler turns into the generic error. -/
def extract_error_details (data : Json) : Except PyErr (Option Json) :=
  match data with
  | .obj kvs =>
    match (Json.obj kvs).get? "errorDetails" with
    | some (.arr (x :: _)) =>
      match x with
      | .obj _ =>
        .ok (match x.getPy "description" with
             | some d => if d.truthy then some d else x.getPy "message"
             | none => x.getPy "message")
      | _ => .error (.typeError "no attribute get")
    | some (.obj eds) =>
      .ok (match (Json.obj eds).getPy "description" with
           | some d => if d.truthy then some d else (Json.obj eds).getPy "message"
           | none => (Json.obj eds).getPy "message")
    | _ => .ok none
  | _ => .ok none

/-- Python `error_details_msg or fallback` (client.py lines 288-296): the
extracted detail when truthy, else the fallback string. -/
def msgOr (edm : Option Json) (fallback : String) : Json :=
  match edm with
  | some v => if v.truthy then v else .str fallback
  | none => .str fallback

/-- Result of `_async_request`: the returned body or raised error, the
token cache afterwards, the number of data-endpoint requests issued and
the number of token-endpoint exchanges performed. -/
structure RequestResult where
  result : Except ClientErr Json
  state : ClientState
  dataRequests : Nat
  tokenFetches : Nat
deriving Repr

/-- Exceptions crossing the big `try` of `_async_request` (client.py lines
301-333): the three client error classes pass through untouched; any other
exception is wrapped into the generic error by the blanket handler. -/
def wrapInner (e : ClientErr) : ClientErr :=
  match e.kind with
  | .uncaught => ⟨.generic, e.msg⟩
  | _ => e

/-- `_async_request` (client.py lines 176-333), driven by oracles: `ep1`
answers the initial `_async_get_token`, `r1` is the first data-endpoint
response, and on a 401 the cached token is cleared, `ep2` answers the
refresh and `r2` is the retried response whose non-2xx statuses are raised
by `retry.raise_for_status()` and classified by the `ClientResponseError`
handler (whose messages ignore the extracted details).  A first-attempt
status of 400 or more other than 401 is classified in place with the
`errorDetails` extraction; transport-level failures of the data endpoint
are outside this model. -/
def async_request (st : ClientState) (now : Int) (ep1 ep2 : TokenFetch)
    (r1 r2 : HttpResponse) : RequestResult :=
  let t1 := async_get_token st now ep1
  let f1 : Nat := if t1.fetched then 1 else 0
  match t1.result with
  | .error e =>
    { result := .error e, state := t1.state, dataRequests := 0, tokenFetches := f1 }
  | .ok tv =>
    if ¬tv.truthy then
      { result := .error ⟨.generic,
          .str "No access token available for NSW Fuel API request"⟩
        state := t1.state, dataRequests := 0, tokenFetches := f1 }
    else if r1.status = 401 then
      let t2 := async_get_token ⟨none, t1.state.tokenExpiry⟩ now ep2
      let f2 : Nat := f1 + (if t2.fetched then 1 else 0)
      match t2.result with
      | .error e =>
        { result := .error (wrapInner e), state := t2.state
          dataRequests := 1, tokenFetches := f2 }
      | .ok tv2 =>
        if ¬tv2.truthy then
          { result := .error ⟨.auth, .str "Failed to refresh token after 401"⟩
            state := t2.state, dataRequests := 1, tokenFetches := f2 }
        else if r2.status ≥ 400 then
          { result := .error (
              if r2.status = 401 then
                ⟨.auth, .str "Authentication failed during request"⟩
              else if r2.status ≥ 500 then
                ⟨.conn, .str ("Server error " ++ toString r2.status ++ ": " ++
                  r2.reason)⟩
              else
                ⟨.generic, .str ("HTTP error " ++ toString r2.status ++ ": " ++
                  r2.reason)⟩)
            state := t2.state, dataRequests := 2, tokenFetches := f2 }
        else
          { result := .ok r2.body, state := t2.state
            dataRequests := 2, tokenFetches := f2 }
    else if r1.status ≥ 400 then
      match extract_error_details r1.body with
      | .error _ =>
        { result := .error ⟨.generic, .str "AttributeError"⟩
          state := t1.state, dataRequests := 1, tokenFetches := f1 }
      | .ok edm =>
        { result := .error (
            if r1.status ≥ 500 then
              ⟨.conn, msgOr edm ("Server error " ++ toString r1.status ++ ": " ++
                r1.reason)⟩
            else
              ⟨.generic, msgOr edm ("HTTP error " ++ toString r1.status ++ ": " ++
                r1.reason)⟩)
          state := t1.state, dataRequests := 1, tokenFetches := f1 }
    else
      { result := .ok r1.body, state := t1.state
        dataRequests := 1, tokenFetches := f1 }

/-- Python `==` on the hashable JSON leaves that can serve as dict keys
(`None`, bools, ints, strings); bools compare numerically with ints.
Lists and dicts are unhashable and never become keys, so their equations
are irrelevant here and return false. -/
def pyEq : Json → Json → Bool
  | .null, .null => true
  | .bool a, .bool b => a == b
  | .bool a, .int n => (if a then (1 : Int) else 0) == n
  | .int n, .bool b => n == (if b then (1 : Int) else 0)
  | .int a, .int b => a == b
  | .str a, .str b => a == b
  | _, _ => false

/-- Whether a decoded JSON value is hashable (usable as a dict key). -/
def hashable : Json → Bool
  | .arr _ => false
  | .obj _ => false
  | _ => true

/-- Python dict insertion: an existing entry with an equal key keeps its
key object and position but gets the new value; otherwise the binding is
appended. -/
def dictInsert (m : List (Json × StationT)) (k : Json) (v : StationT) :
    List (Json × StationT) :=
  match m with
  | [] => [(k, v)]
  | (k', v') :: rest =>
    if pyEq k' k then (k', v) :: rest else (k', v') :: dictInsert rest k v

/-- Python `dict.get(k)`. -/
def dictGet (m : List (Json × StationT)) (k : Json) : Option StationT :=
  match m with
  | [] => none
  | (k', v) :: rest => if pyEq k' k then some v else dictGet rest k

/-- The dict comprehension of client.py lines 493-496:
`{station["code"]: Station.deserialize(station) for station in
stations_data}`.  Keys are the RAW `code` values (no coercion); any
`KeyError`, deserialization error or unhashable key aborts the whole
comprehension and the exception is caught by the operation's blanket
handler. -/
def stations_dict_loop (acc : List (Json × StationT)) :
    List Json → Except PyErr (List (Json × StationT))
  | [] => .ok acc
  | s :: rest => do
    let k ← jsonIndex s "code"
    let st ← Station.deserialize s
    if hashable k then stations_dict_loop (dictInsert acc k st) rest
    else Except.error (.typeError "unhashable type")

def stations_dict (stations_data : List Json) :
    Except PyErr (List (Json × StationT)) :=
  stations_dict_loop [] stations_data

/-- The lookup key `price.station_code` used at client.py line 503: a
Python int or `None`. -/
def codeKey : Option Int → Json
  | some n => .int n
  | none => .null

/-- The price loop of client.py lines 499-509: each price is deserialized
inside its own `try`, a failing entry is skipped with a warning, and a
successfully parsed price is appended together with `stations.get(
price.station_code)` only when that lookup finds a station. -/
def station_prices_loop (smap : List (Json × StationT)) :
    List Json → List (PriceT × StationT)
  | [] => []
  | p :: rest =>
    match Price.deserialize p with
    | .ok pr =>
      match dictGet smap (codeKey pr.station_code) with
      | some st => (pr, st) :: station_prices_loop smap rest
      | none => station_prices_loop smap rest
    | .error _ => station_prices_loop smap rest

/-- The join performed by `get_fuel_prices_within_radius` (client.py lines
492-518) once the response has been split into `stations_data` and
`prices_data`: build the station dict, then run the price loop. -/
def join_station_prices (stations_data prices_data : List Json) :
    Except PyErr (List (PriceT × StationT)) := do
  let smap ← stations_dict stations_data
  Except.ok (station_prices_loop smap prices_data)

/-! Helper lemmas shared by the claim theorems. -/

theorem get?_some_jsonIndex {data : Json} {k : String} {v : Json}
    (h : data.get? k = some v) : jsonIndex data k = .ok v := by
  cases data <;> simp [Json.get?] at h <;> simp [jsonIndex, Json.get?, h]

theorem async_get_token_refresh_fetches (st : ClientState) (now : Int)
    (ep : TokenFetch)
    (hc : ¬(tokenTruthy st.token = true ∧ now ≤ st.tokenExpiry - 60)) :
    (async_get_token st now ep).fetched = true := by
  unfold async_get_token
  rw [if_neg (by simpa using hc)]
  cases ep with
  | ok body =>
    cases h : body.getPy "access_token" with
    | none => simp [h]
    | some tok =>
      cases h2 : expiresInCoerce body with
      | ok e => simp [h, h2]
      | error e => simp [h, h2]
  | badJson => rfl
  | httpError s m => by_cases h : s = 401 <;> simp [h]
  | netError m => rfl

/-- C1: in `_async_request` the number of data-endpoint requests never
exceeds two (one retry at most); and when the initial token is obtained
and truthy and the first response is a 401, the engine clears the cached
token, performs a fresh token-endpoint exchange, issues exactly one retry
(two data requests in total), and a second 401 makes the call fail with
the `NSWFuelApiClientAuthError` class. -/
theorem c1_retry_401_once :
    (∀ (st : ClientState) (now : Int) (ep1 ep2 : TokenFetch)
        (r1 r2 : HttpResponse),
      (async_request st now ep1 ep2 r1 r2).dataRequests ≤ 2) ∧
    (∀ (st : ClientState) (now : Int) (ep1 ep2 : TokenFetch)
        (r1 r2 : HttpResponse) (tv tv2 : Json),
      (async_get_token st now ep1).result = .ok tv → tv.truthy = true →
      r1.status = 401 →
      (async_get_token ⟨none, (async_get_token st now ep1).state.tokenExpiry⟩
          now ep2).result = .ok tv2 → tv2.truthy = true →
      (async_request st now ep1 ep2 r1 r2).dataRequests = 2 ∧
      (async_get_token ⟨none, (async_get_token st now ep1).state.tokenExpiry⟩
          now ep2).fetched = true ∧
      (r2.status = 401 →
        (async_request st now ep1 ep2 r1 r2).result =
          .error ⟨.auth, .str "Authentication failed during request"⟩)) := by
  constructor
  · intro st now ep1 ep2 r1 r2
    unfold async_request
    rcases h1 : (async_get_token st now ep1).result with e | tv
    · simp [h1]
    · simp only [h1]
      by_cases h2 : tv.truthy
      all_goals by_cases h3 : r1.status = 401
      all_goals try { simp [h2, h3]; done }
      · rcases h4 : (async_get_token ⟨none,
            (async_get_token st now ep1).state.tokenExpiry⟩ now ep2).result with e2 | tv2
        · simp [h2, h3, h4]
        · simp [h2, h3, h4]
          repeat' split
          all_goals simp
      · simp [h2, h3]
        repeat' split
        all_goals simp
  · intro st now ep1 ep2 r1 r2 tv tv2 h1 h2 h401 h3 h4
    refine ⟨?_, ?_, ?_⟩
    · by_cases hr2 : r2.status ≥ 400 <;>
        simp [async_request, h1, h2, h401, h3, h4, hr2]
    · exact async_get_token_refresh_fetches _ now ep2 (by simp [tokenTruthy])
    · intro hr2
      simp [async_request, h1, h2, h401, h3, h4, hr2]

/-- C1 witness: concrete 401-then-401 run with a cached initial token and
a successful refresh; exactly two data requests and an auth failure. -/
theorem c1_retry_401_once_witness :
    (async_request ⟨some (.str "T"), 1000⟩ 0 (.ok .null)
        (.ok (Json.obj [("access_token", .str "V")]))
        ⟨401, .null, "Unauthorized"⟩ ⟨401, .null, "Unauthorized"⟩).dataRequests = 2 ∧
    (async_request ⟨some (.str "T"), 1000⟩ 0 (.ok .null)
        (.ok (Json.obj [("access_token", .str "V")]))
        ⟨401, .null, "Unauthorized"⟩ ⟨401, .null, "Unauthorized"⟩).result =
      .error ⟨.auth, .str "Authentication failed during request"⟩ := by
  have h := c1_retry_401_once.2 ⟨some (.str "T"), 1000⟩ 0 (.ok .null)
    (.ok (Json.obj [("access_token", .str "V")]))
    ⟨401, .null, "Unauthorized"⟩ ⟨401, .null, "Unauthorized"⟩
    (.str "T") (.str "V") (by rfl) (by decide) (by rfl) (by rfl) (by decide)
  exact ⟨h.1, h.2.2 (by rfl)⟩

/-- C2 counterexample: with a token whose expiry is at 100 and the clock
at 40 — exactly 60 seconds before expiry — `_async_get_token` returns the
cached token without any network exchange, because the refresh condition
is `now > expiry - 60` (strict).  The claim that a token at or within 60
seconds of expiry is never used is therefore false at this input. -/
theorem c2_expiry_boundary_counterexample :
    (async_get_token ⟨some (.str "T"), 100⟩ 40
        (.ok (Json.obj [("access_token", .str "U")]))).fetched = false ∧
    (async_get_token ⟨some (.str "T"), 100⟩ 40
        (.ok (Json.obj [("access_token", .str "U")]))).result = .ok (.str "T") :=
  ⟨rfl, rfl⟩

/-- C2 amended: a network exchange is skipped exactly when the cached
token is truthy and `now ≤ expiry - 60`; in that case the cached token and
state are returned unchanged; and a successful acquisition at time `now`
with `expires_in = e` caches expiry `now + e` (so calls strictly earlier
than 60 seconds before that expiry reuse the token, while the boundary
instant `expiry - 60` itself still reuses it). -/
theorem c2_token_reuse_amended (st : ClientState) (now : Int)
    (ep : TokenFetch) (body tokv : Json) (e : Int) :
    ((async_get_token st now ep).fetched = false ↔
      tokenTruthy st.token = true ∧ now ≤ st.tokenExpiry - 60) ∧
    (tokenTruthy st.token = true → now ≤ st.tokenExpiry - 60 →
      async_get_token st now ep = ⟨.ok (st.token.getD .null), st, false⟩) ∧
    (¬(tokenTruthy st.token = true ∧ now ≤ st.tokenExpiry - 60) →
      body.getPy "access_token" = some tokv →
      expiresInCoerce body = .ok e →
      (async_get_token st now (.ok body)).state = ⟨some tokv, now + e⟩) := by
  refine ⟨⟨fun hf => ?_, fun hc => ?_⟩, fun h1 h2 => ?_, fun hc h1 h2 => ?_⟩
  · by_contra hc
    rw [async_get_token_refresh_fetches st now ep hc] at hf
    exact absurd hf (by simp)
  · simp [async_get_token, hc]
  · simp [async_get_token, h1, h2]
  · simp [async_get_token, hc, h1, h2]

/-- C2 amended witness: a call at 39 (one second inside the safe zone)
reuses the cached token with no exchange, and a fresh acquisition at time
5 with `expires_in` 3600 caches expiry 3605. -/
theorem c2_token_reuse_amended_witness :
    (async_get_token ⟨some (.str "T"), 100⟩ 39 (.httpError 500 "x") =
      ⟨.ok (.str "T"), ⟨some (.str "T"), 100⟩, false⟩) ∧
    ((async_get_token ⟨none, 0⟩ 5
        (.ok (Json.obj [("access_token", .str "U"), ("expires_in", .int 3600)]))).state =
      ⟨some (.str "U"), 3605⟩) :=
  ⟨(c2_token_reuse_amended ⟨some (.str "T"), 100⟩ 39 (.httpError 500 "x")
      .null .null 0).2.1 (by decide) (by decide),
   (c2_token_reuse_amended ⟨none, 0⟩ 5 (.httpError 500 "x")
      (Json.obj [("access_token", .str "U"), ("expires_in", .int 3600)])
      (.str "U") 3600).2.2 (by decide) (by rfl) (by rfl)⟩

/-- C3 counterexample: a 408 response is not retried (one data request,
not two) and raises the generic error class with the plain HTTP-error
message, not the connection class — there is no 408 branch in
`_async_request`, so the claimed retry-after-500ms behaviour is absent. -/
theorem c3_timeout_408_counterexample :
    (async_request ⟨some (.str "T"), 1000⟩ 0 (.ok .null) (.ok .null)
        ⟨408, .str "timeout", "Request Timeout"⟩ ⟨200, .null, "OK"⟩).dataRequests = 1 ∧
    (async_request ⟨some (.str "T"), 1000⟩ 0 (.ok .null) (.ok .null)
        ⟨408, .str "timeout", "Request Timeout"⟩ ⟨200, .null, "OK"⟩).result =
      .error ⟨.generic, .str "HTTP error 408: Request Timeout"⟩ :=
  ⟨rfl, rfl⟩

/-- C3 amended: a first-attempt 408 is handled like every other 4xx other
than 401: no retry is issued and the call fails at once with the generic
`NSWFuelApiClientError`, whose message is the extracted `errorDetails`
when present and truthy, else `HTTP error 408: <reason>`. -/
theorem c3_timeout_408_amended (st : ClientState) (now : Int)
    (ep1 ep2 : TokenFetch) (r2 : HttpResponse) (body : Json)
    (reason : String) (tv : Json) (edm : Option Json)
    (h1 : (async_get_token st now ep1).result = .ok tv)
    (h2 : tv.truthy = true)
    (hed : extract_error_details body = .ok edm) :
    (async_request st now ep1 ep2 ⟨408, body, reason⟩ r2).dataRequests = 1 ∧
    (async_request st now ep1 ep2 ⟨408, body, reason⟩ r2).result =
      .error ⟨.generic, msgOr edm ("HTTP error 408: " ++ reason)⟩ := by
  constructor
  · simp [async_request, h1, h2, hed]
  · have : (async_request st now ep1 ep2 ⟨408, body, reason⟩ r2).result =
        .error ⟨.generic, msgOr edm ("HTTP error " ++ toString 408 ++ ": " ++ reason)⟩ := by
      simp [async_request, h1, h2, hed]
    exact this

/-- C3 amended witness: concrete 408 run. -/
theorem c3_timeout_408_amended_witness :
    (async_request ⟨some (.str "T"), 1000⟩ 0 (.ok .null) (.ok .null)
        ⟨408, .null, "Request Timeout"⟩ ⟨200, .null, "OK"⟩).dataRequests = 1 ∧
    (async_request ⟨some (.str "T"), 1000⟩ 0 (.ok .null) (.ok .null)
        ⟨408, .null, "Request Timeout"⟩ ⟨200, .null, "OK"⟩).result =
      .error ⟨.generic, .str "HTTP error 408: Request Timeout"⟩ :=
  c3_timeout_408_amended ⟨some (.str "T"), 1000⟩ 0 (.ok .null) (.ok .null)
    ⟨200, .null, "OK"⟩ .null "Request Timeout" (.str "T") none
    (by rfl) (by decide) (by rfl)

/-- C4: a first-attempt status of at least 400 other than 401 raises the
connection class exactly when the status is at least 500 and the generic
class otherwise; in both cases the message is the (truthy) value extracted
from the body's `errorDetails` when present, else the fallback carrying
the HTTP reason phrase; and exactly one data request is issued. -/
theorem c4_error_classification (st : ClientState) (now : Int)
    (ep1 ep2 : TokenFetch) (r2 : HttpResponse) (s : Nat) (body : Json)
    (reason : String) (tv : Json) (edm : Option Json)
    (h1 : (async_get_token st now ep1).result = .ok tv)
    (h2 : tv.truthy = true)
    (hs4 : 400 ≤ s) (hs401 : s ≠ 401)
    (hed : extract_error_details body = .ok edm) :
    (async_request st now ep1 ep2 ⟨s, body, reason⟩ r2).result =
      .error (if 500 ≤ s then
          ⟨.conn, msgOr edm ("Server error " ++ toString s ++ ": " ++ reason)⟩
        else
          ⟨.generic, msgOr edm ("HTTP error " ++ toString s ++ ": " ++ reason)⟩) ∧
    (async_request st now ep1 ep2 ⟨s, body, reason⟩ r2).dataRequests = 1 := by
  simp [async_request, h1, h2, hs4, hs401, hed]

/-- C4 witness: a 400 whose body carries
`errorDetails: [{description: "X"}]` raises the generic error with message
exactly `"X"`, and a bare 503 raises the connection error with the
reason-phrase fallback. -/
theorem c4_error_classification_witness :
    (async_request ⟨some (.str "T"), 1000⟩ 0 (.ok .null) (.ok .null)
        ⟨400, .obj [("errorDetails", .arr [.obj [("description", .str "X")]])],
          "Bad Request"⟩ ⟨200, .null, "OK"⟩).result =
      .error ⟨.generic, .str "X"⟩ ∧
    (async_request ⟨some (.str "T"), 1000⟩ 0 (.ok .null) (.ok .null)
        ⟨503, .null, "Service Unavailable"⟩ ⟨200, .null, "OK"⟩).result =
      .error ⟨.conn, .str "Server error 503: Service Unavailable"⟩ :=
  ⟨(c4_error_classification ⟨some (.str "T"), 1000⟩ 0 (.ok .null) (.ok .null)
      ⟨200, .null, "OK"⟩ 400
      (.obj [("errorDetails", .arr [.obj [("description", .str "X")]])])
      "Bad Request" (.str "T") (some (.str "X"))
      (by rfl) (by decide) (by decide) (by decide) (by rfl)).1,
   (c4_error_classification ⟨some (.str "T"), 1000⟩ 0 (.ok .null) (.ok .null)
      ⟨200, .null, "OK"⟩ 503 .null "Service Unavailable" (.str "T") none
      (by rfl) (by decide) (by decide) (by decide) (by rfl)).1⟩

/-- C5: whenever `_async_get_token` actually consults the endpoint and the
2xx body has no (non-null) `access_token`, the call fails with the generic
`NSWFuelApiClientError` and the cached token is cleared. -/
theorem c5_missing_access_token (st : ClientState) (now : Int) (body : Json)
    (hre : ¬(tokenTruthy st.token = true ∧ now ≤ st.tokenExpiry - 60))
    (hmiss : body.getPy "access_token" = none) :
    (async_get_token st now (.ok body)).result =
      .error ⟨.generic, .str "No access_token in NSW Fuel Check token response"⟩ ∧
    (async_get_token st now (.ok body)).state.token = none := by
  simp [async_get_token, hre, hmiss]

/-- C5 witness: a body without `access_token` on a cold cache. -/
theorem c5_missing_access_token_witness :
    (async_get_token ⟨none, 0⟩ 0 (.ok (Json.obj [("error", .str "x")]))).result =
      .error ⟨.generic, .str "No access_token in NSW Fuel Check token response"⟩ ∧
    (async_get_token ⟨none, 0⟩ 0 (.ok (Json.obj [("error", .str "x")]))).state.token = none :=
  c5_missing_access_token ⟨none, 0⟩ 0 (Json.obj [("error", .str "x")])
    (by decide) (by rfl)

/-! Lemmas about JSON lookup, Python dict operations and the
deserializers, shared by the remaining claim theorems. -/

theorem jsonIndex_ok_get? {data : Json} {k : String} {v : Json}
    (h : jsonIndex data k = .ok v) : data.get? k = some v := by
  cases data <;> simp [jsonIndex] at h <;> try exact h.elim
  case obj kvs =>
    rcases hg : (Json.obj kvs).get? k with _ | w <;> rw [hg] at h <;>
      simp at h
    rw [h]

theorem pyEq_int {m n : Int} (h : pyEq (.int m) (.int n) = true) : m = n := by
  simpa [pyEq] using h

theorem pyEq_null {k : Json} (h : pyEq k .null = true) : k = .null := by
  cases k <;> simp [pyEq] at h
  rfl

theorem dictGet_some {m : List (Json × StationT)} {k : Json} {v : StationT}
    (h : dictGet m k = some v) : ∃ k', (k', v) ∈ m ∧ pyEq k' k = true := by
  induction m with
  | nil => simp [dictGet] at h
  | cons kv rest ih =>
    rcases kv with ⟨k', v'⟩
    by_cases he : pyEq k' k = true
    · simp [dictGet, he] at h
      exact ⟨k', by simp [← h], he⟩
    · simp [dictGet, he] at h
      obtain ⟨k'', hmem, heq⟩ := ih h
      exact ⟨k'', by simp [hmem], heq⟩

theorem dictInsert_keyMem {m : List (Json × StationT)} {k x : Json}
    {v : StationT} (h : x ∈ (dictInsert m k v).map Prod.fst) :
    x = k ∨ x ∈ m.map Prod.fst := by
  induction m with
  | nil => simp [dictInsert] at h; exact Or.inl h
  | cons kv rest ih =>
    rcases kv with ⟨k', v'⟩
    by_cases he : pyEq k' k = true <;> simp [dictInsert, he] at h
    · rcases h with h | h
      · exact Or.inr (by simp [h])
      · exact Or.inr (by simp; exact Or.inr (by simpa using h))
    · rcases h with h | h
      · exact Or.inr (by simp [h])
      · rcases ih (by simpa using h) with h2 | h2
        · exact Or.inl h2
        · exact Or.inr (by simp; exact Or.inr (by simpa using h2))

theorem station_code_from_raw {data : Json} {st : StationT}
    (h : Station.deserialize data = .ok st) :
    ∃ raw, data.get? "code" = some raw ∧ pyInt raw = .ok st.code := by
  simp [Station.deserialize, bind, Except.bind] at h
  rcases h1 : jsonIndex data "brand" with e | brand <;> simp [h1] at h
  rcases h2 : jsonIndex data "code" with e | raw <;> simp [h2] at h
  rcases h3 : pyInt raw with e | n <;> simp [h3] at h
  rcases h4 : jsonIndex data "name" with e | nm <;> simp [h4] at h
  rcases h5 : jsonIndex data "address" with e | ad <;> simp [h5] at h
  rcases h6 : jsonIndex data "location" with e | loc <;> simp [h6] at h
  rcases h7 : jsonIndex loc "latitude" with e | la <;> simp [h7] at h
  rcases h8 : jsonIndex loc "longitude" with e | lo <;> simp [h8] at h
  refine ⟨raw, jsonIndex_ok_get? h2, ?_⟩
  rw [h3, ← h]

theorem dictInsert_int_inv {m : List (Json × StationT)} {k : Json}
    {v : StationT} {n : Int}
    (hm : ∀ kv ∈ m, ∃ i : Int, kv.1 = Json.int i ∧ kv.2.code = i)
    (hk : k = Json.int n) (hv : v.code = n) :
    ∀ kv ∈ dictInsert m k v, ∃ i : Int, kv.1 = Json.int i ∧ kv.2.code = i := by
  induction m with
  | nil =>
    intro kv hkv
    simp [dictInsert] at hkv
    exact ⟨n, by simp [hkv, hk], by simp [hkv, hv]⟩
  | cons kv0 rest ih =>
    rcases kv0 with ⟨k', v'⟩
    intro kv hkv
    by_cases he : pyEq k' k = true <;> simp [dictInsert, he] at hkv
    · rcases hkv with hkv | hkv
      · obtain ⟨i, hi1, _⟩ := hm (k', v') (by simp)
        have : i = n := by
          apply pyEq_int
          rw [← hi1, ← hk]
          exact he
        exact ⟨i, by simp [hkv, hi1], by simp [hkv, hv, this]⟩
      · exact hm kv (by simp [hkv])
    · rcases hkv with hkv | hkv
      · exact hm kv (by simp [hkv])
      · exact ih (fun kv2 h2 => hm kv2 (by simp [h2])) kv hkv

theorem stations_dict_loop_int {sd : List Json}
    {acc smap : List (Json × StationT)}
    (hint : ∀ s ∈ sd, ∃ n : Int, s.get? "code" = some (.int n))
    (hacc : ∀ kv ∈ acc, ∃ i : Int, kv.1 = Json.int i ∧ kv.2.code = i)
    (hok : stations_dict_loop acc sd = .ok smap) :
    ∀ kv ∈ smap, ∃ i : Int, kv.1 = Json.int i ∧ kv.2.code = i := by
  induction sd generalizing acc with
  | nil =>
    simp [stations_dict_loop] at hok
    rw [← hok]
    exact hacc
  | cons s rest ih =>
    simp [stations_dict_loop, bind, Except.bind] at hok
    rcases h1 : jsonIndex s "code" with e | k <;> rw [h1] at hok <;> simp at hok
    rcases h2 : Station.deserialize s with e | stv <;> rw [h2] at hok <;>
      simp at hok
    obtain ⟨n, hn⟩ := hint s (by simp)
    have hkn : k = Json.int n := by
      have := jsonIndex_ok_get? h1
      rw [this] at hn
      simpa using hn
    have hcode : stv.code = n := by
      obtain ⟨raw, hraw, hpy⟩ := station_code_from_raw h2
      rw [jsonIndex_ok_get? h1] at hraw
      have : k = raw := by simpa using hraw
      rw [← this, hkn] at hpy
      simpa [pyInt] using hpy.symm
    subst hkn
    simp [hashable] at hok
    exact ih (fun s' hs' => hint s' (by simp [hs']))
      (dictInsert_int_inv hacc rfl hcode) hok

theorem stations_dict_loop_keys {sd : List Json}
    {acc smap : List (Json × StationT)}
    (hok : stations_dict_loop acc sd = .ok smap) :
    ∀ kv ∈ smap, kv.1 ∈ acc.map Prod.fst ∨
      ∃ s ∈ sd, s.get? "code" = some kv.1 := by
  induction sd generalizing acc with
  | nil =>
    simp [stations_dict_loop] at hok
    rw [← hok]
    intro kv hkv
    exact Or.inl (by simp; exact ⟨kv.2, by simpa using hkv⟩)
  | cons s rest ih =>
    simp [stations_dict_loop, bind, Except.bind] at hok
    rcases h1 : jsonIndex s "code" with e | k <;> rw [h1] at hok <;> simp at hok
    rcases h2 : Station.deserialize s with e | stv <;> rw [h2] at hok <;>
      simp at hok
    rcases h3 : hashable k with _ | _ <;> rw [h3] at hok <;> simp at hok
    intro kv hkv
    rcases ih hok kv hkv with hm | ⟨s', hs', hcode⟩
    · rcases dictInsert_keyMem hm with h | h
      · exact Or.inr ⟨s, by simp, by rw [h]; exact jsonIndex_ok_get? h1⟩
      · exact Or.inl h
    · exact Or.inr ⟨s', by simp [hs'], hcode⟩

theorem station_prices_loop_all_match {smap : List (Json × StationT)}
    (hkeys : ∀ kv ∈ smap, ∃ i : Int, kv.1 = Json.int i ∧ kv.2.code = i) :
    ∀ pd : List Json,
      (∀ p ∈ pd, ∃ pr st c, Price.deserialize p = .ok pr ∧
        pr.station_code = some c ∧ dictGet smap (.int c) = some st) →
      (station_prices_loop smap pd).length = pd.length ∧
      ∀ e ∈ station_prices_loop smap pd,
        ∃ c, e.1.station_code = some c ∧ e.2.code = c := by
  intro pd
  induction pd with
  | nil => intro _; simp [station_prices_loop]
  | cons p rest ih =>
    intro hm
    obtain ⟨pr, st, c, hde, hsc, hget⟩ := hm p (by simp)
    have hout : station_prices_loop smap (p :: rest) =
        (pr, st) :: station_prices_loop smap rest := by
      simp [station_prices_loop, hde, hsc, codeKey, hget]
    obtain ⟨ihl, ihp⟩ := ih (fun q hq => hm q (by simp [hq]))
    constructor
    · simp [hout, ihl]
    · intro e he
      rw [hout] at he
      rcases (by simpa using he : e = (pr, st) ∨
          e ∈ station_prices_loop smap rest) with he2 | he2
      · obtain ⟨k', hmem, heq⟩ := dictGet_some hget
        obtain ⟨i, hk', hcode⟩ := hkeys (k', st) hmem
        simp at hk' hcode
        have : i = c := pyEq_int (by rw [← hk']; exact heq)
        exact ⟨c, by simp [he2, hsc], by simp [he2, hcode, this]⟩
      · exact ihp e he2

theorem station_prices_loop_excludes {smap : List (Json × StationT)}
    (hkeys : ∀ kv ∈ smap, ∃ i : Int, kv.1 = Json.int i ∧ kv.2.code = i) :
    ∀ pd : List Json, ∀ e ∈ station_prices_loop smap pd,
      ∃ c, e.1.station_code = some c ∧
        dictGet smap (.int c) = some e.2 ∧ e.2.code = c := by
  intro pd
  induction pd with
  | nil => simp [station_prices_loop]
  | cons p rest ih =>
    intro e he
    rcases h1 : Price.deserialize p with err | pr <;>
      simp [station_prices_loop, h1] at he
    · exact ih e (by simpa [station_prices_loop] using he)
    · rcases h2 : dictGet smap (codeKey pr.station_code) with _ | st <;>
        rw [h2] at he
      · exact ih e (by simpa using he)
      · rcases (by simpa using he : e = (pr, st) ∨
            e ∈ station_prices_loop smap rest) with he2 | he2
        · obtain ⟨k', hmem, heq⟩ := dictGet_some h2
          obtain ⟨i, hk', hcode⟩ := hkeys (k', st) hmem
          simp at hk' hcode
          rcases hsc : pr.station_code with _ | c
          · rw [hsc] at h2 heq
            have : k' = Json.null := pyEq_null (by simpa [codeKey] using heq)
            rw [this] at hk'
            exact absurd hk' (by simp)
          · rw [hsc] at h2 heq
            have hic : i = c := pyEq_int (by rw [← hk']; simpa [codeKey] using heq)
            refine ⟨c, by simp [he2, hsc], ?_, by simp [he2, hcode, hic]⟩
            simpa [he2, codeKey] using h2
        · exact ih e he2

theorem price_deserialize_ok_keys {data : Json} {pr : PriceT}
    (h : Price.deserialize data = .ok pr) :
    (∃ v, data.get? "lastupdated" = some v) ∧
    (∃ v, data.get? "fueltype" = some v) ∧
    (∃ v, data.get? "price" = some v) := by
  simp [Price.deserialize, bind, Except.bind] at h
  rcases h1 : jsonIndex data "lastupdated" with e | lu <;> rw [h1] at h <;>
    simp at h
  cases lu <;> simp at h
  case str s =>
  rcases h2 : data.get? "stationcode" with _ | v <;>
    simp [h2, Except.map] at h
  · rcases h4 : jsonIndex data "fueltype" with e | ft <;> rw [h4] at h <;>
      simp at h
    rcases h5 : jsonIndex data "price" with e | pv <;> rw [h5] at h <;>
      simp at h
    exact ⟨⟨_, jsonIndex_ok_get? h1⟩, ⟨_, jsonIndex_ok_get? h4⟩,
      ⟨_, jsonIndex_ok_get? h5⟩⟩
  · rcases h3 : pyInt v with e | n <;> rw [h3] at h <;> simp at h
    rcases h4 : jsonIndex data "fueltype" with e | ft <;> rw [h4] at h <;>
      simp at h
    rcases h5 : jsonIndex data "price" with e | pv <;> rw [h5] at h <;>
      simp at h
    exact ⟨⟨_, jsonIndex_ok_get? h1⟩, ⟨_, jsonIndex_ok_get? h4⟩,
      ⟨_, jsonIndex_ok_get? h5⟩⟩

/-- C6 counterexample: one station whose raw `code` is the JSON string
`"123"` and one price whose raw `stationcode` is the string `"123"`.  Both
deserialize successfully, the price's `station_code` (123) equals the
single station's `code` (123) — so every price matches exactly one station
— yet the join output is empty, because the station dict is keyed by the
raw string while the lookup key is the coerced int. -/
theorem c6_join_counterexample :
    Station.deserialize (.obj [("brand", .str "B"), ("code", .str "123"),
        ("name", .str "N"), ("address", .str "A"),
        ("location", .obj [("latitude", .int 1), ("longitude", .int 2)])]) =
      .ok ⟨none, .str "B", 123, .str "N", .str "A", .int 1, .int 2⟩ ∧
    Price.deserialize (.obj [("fueltype", .str "E10"), ("price", .int 100),
        ("lastupdated", .str "02/06/2018 02:03:04"),
        ("stationcode", .str "123")]) =
      .ok ⟨.str "E10", .int 100, some ⟨2018, 6, 2, 2, 3, 4⟩, none, some 123⟩ ∧
    join_station_prices
      [.obj [("brand", .str "B"), ("code", .str "123"),
        ("name", .str "N"), ("address", .str "A"),
        ("location", .obj [("latitude", .int 1), ("longitude", .int 2)])]]
      [.obj [("fueltype", .str "E10"), ("price", .int 100),
        ("lastupdated", .str "02/06/2018 02:03:04"),
        ("stationcode", .str "123")]] = .ok [] :=
  ⟨rfl, rfl, rfl⟩

/-- C6 amended: when the stations' raw `code` values are JSON integers,
the nearby-prices join returns (never failing once the station dict is
built) a list pairing each price with the station whose code equals the
price's `station_code`; under the all-matched hypothesis the output length
equals the price list length, and unconditionally every output element has
a non-null `station_code` that hits the dict, so null, unmatched and
unparseable prices are excluded without failing the call. -/
theorem c6_join_amended (sd : List Json) (smap : List (Json × StationT))
    (hsd : stations_dict sd = .ok smap)
    (hint : ∀ s ∈ sd, ∃ n : Int, s.get? "code" = some (.int n)) :
    (∀ pd, join_station_prices sd pd = .ok (station_prices_loop smap pd)) ∧
    (∀ pd, (∀ p ∈ pd, ∃ pr st c, Price.deserialize p = .ok pr ∧
        pr.station_code = some c ∧ dictGet smap (.int c) = some st) →
      (station_prices_loop smap pd).length = pd.length ∧
      ∀ e ∈ station_prices_loop smap pd,
        ∃ c, e.1.station_code = some c ∧ e.2.code = c) ∧
    (∀ pd, ∀ e ∈ station_prices_loop smap pd,
      ∃ c, e.1.station_code = some c ∧
        dictGet smap (.int c) = some e.2 ∧ e.2.code = c) := by
  have hkeys := stations_dict_loop_int hint (by simp) hsd
  exact ⟨fun pd => by simp [join_station_prices, hsd, bind, Except.bind],
    station_prices_loop_all_match hkeys,
    station_prices_loop_excludes hkeys⟩

/-- C6 amended witness: one integer-coded station and one matching price;
the join returns the loop output, whose length is the price count. -/
theorem c6_join_amended_witness :
    join_station_prices
      [.obj [("brand", .str "B"), ("code", .int 678),
        ("name", .str "N"), ("address", .str "A"),
        ("location", .obj [("latitude", .int 1), ("longitude", .int 2)])]]
      [.obj [("fueltype", .str "E10"), ("price", .int 100),
        ("lastupdated", .str "02/06/2018 02:03:04"),
        ("stationcode", .int 678)]] =
      .ok (station_prices_loop
        [(Json.int 678, ⟨none, .str "B", 678, .str "N", .str "A", .int 1, .int 2⟩)]
        [.obj [("fueltype", .str "E10"), ("price", .int 100),
          ("lastupdated", .str "02/06/2018 02:03:04"),
          ("stationcode", .int 678)]]) ∧
    (station_prices_loop
      [(Json.int 678, ⟨none, .str "B", 678, .str "N", .str "A", .int 1, .int 2⟩)]
      [.obj [("fueltype", .str "E10"), ("price", .int 100),
        ("lastupdated", .str "02/06/2018 02:03:04"),
        ("stationcode", .int 678)]]).length = 1 := by
  have h := c6_join_amended
    [.obj [("brand", .str "B"), ("code", .int 678),
      ("name", .str "N"), ("address", .str "A"),
      ("location", .obj [("latitude", .int 1), ("longitude", .int 2)])]]
    [(Json.int 678, ⟨none, .str "B", 678, .str "N", .str "A", .int 1, .int 2⟩)]
    (by rfl)
    (by intro s hs
        simp at hs
        subst hs
        exact ⟨678, rfl⟩)
  refine ⟨h.1 _, (h.2.1 _ ?_).1⟩
  intro p hp
  simp at hp
  subst hp
  exact ⟨⟨.str "E10", .int 100, some ⟨2018, 6, 2, 2, 3, 4⟩, none, some 678⟩,
    ⟨none, .str "B", 678, .str "N", .str "A", .int 1, .int 2⟩, 678,
    rfl, rfl, rfl⟩

/-- C7: `Price.deserialize` derives `last_updated` by trying
`%d/%m/%Y %H:%M:%S` first and, only when that fails, `%Y-%m-%d %H:%M:%S`;
`"02/06/2018 02:03:04"` parses as June 2, 2018, 02:03:04 under the first
format, `"2018-06-02 00:46:31"` fails the first format and parses under
the second, and a string matching neither format yields a `none`
`last_updated` with no raised error. -/
theorem c7_lastupdated_formats :
    (∀ (data : Json) (s : String) (pr : PriceT),
      data.get? "lastupdated" = some (.str s) →
      Price.deserialize data = .ok pr →
      pr.last_updated = (match strptimeDMYHMS s with
        | some d => some d
        | none => strptimeYMDHMS s)) ∧
    strptimeDMYHMS "02/06/2018 02:03:04" = some ⟨2018, 6, 2, 2, 3, 4⟩ ∧
    (strptimeDMYHMS "2018-06-02 00:46:31" = none ∧
     strptimeYMDHMS "2018-06-02 00:46:31" = some ⟨2018, 6, 2, 0, 46, 31⟩) ∧
    Price.deserialize (.obj [("fueltype", .str "E10"), ("price", .int 1),
        ("lastupdated", .str "not a date")]) =
      .ok ⟨.str "E10", .int 1, none, none, none⟩ := by
  refine ⟨?_, by decide, ⟨by decide, by decide⟩, by rfl⟩
  intro data s pr hlu hok
  have hj := get?_some_jsonIndex hlu
  simp [Price.deserialize, hj, bind, Except.bind] at hok
  rcases h1 : data.get? "stationcode" with _ | v <;>
    simp [h1, bind, Except.bind, Except.map] at hok
  · rcases h2 : jsonIndex data "fueltype" with e | ft <;>
      simp [h2, bind, Except.bind] at hok
    rcases h3 : jsonIndex data "price" with e | pv <;>
      simp [h3, bind, Except.bind] at hok
    rw [← hok]
  · rcases h4 : pyInt v with e | n <;>
      simp [h4, bind, Except.bind, Except.map] at hok
    rcases h2 : jsonIndex data "fueltype" with e | ft <;>
      simp [h2, bind, Except.bind] at hok
    rcases h3 : jsonIndex data "price" with e | pv <;>
      simp [h3, bind, Except.bind] at hok
    rw [← hok]

/-- C7 witness: the format chain applied to the second sample date through
a full `Price.deserialize` run. -/
theorem c7_lastupdated_formats_witness :
    (⟨.str "E10", .int 1, some ⟨2018, 6, 2, 0, 46, 31⟩, none, none⟩ :
        PriceT).last_updated =
      (match strptimeDMYHMS "2018-06-02 00:46:31" with
       | some d => some d
       | none => strptimeYMDHMS "2018-06-02 00:46:31") :=
  c7_lastupdated_formats.1
    (.obj [("fueltype", .str "E10"), ("price", .int 1),
      ("lastupdated", .str "2018-06-02 00:46:31")])
    "2018-06-02 00:46:31"
    ⟨.str "E10", .int 1, some ⟨2018, 6, 2, 0, 46, 31⟩, none, none⟩
    (by rfl) (by rfl)

/-- C8: `AveragePrice.deserialize` parses `Captured` with `%Y-%m-%d` when
the period is Day, Week or Month and with `%B %Y` when it is Year;
concretely, a Day record captured `"2018-06-02"` parses to that date and a
Year record captured `"June 2018"` parses to June 1, 2018. -/
theorem c8_average_price_formats :
    (∀ (data : Json) (s : String) (av : AveragePriceT),
      data.get? "Captured" = some (.str s) →
      AveragePrice.deserialize data = .ok av →
      (av.period = .year → strptimeBY s = some av.captured) ∧
      (av.period ≠ .year → strptimeYMD s = some av.captured)) ∧
    AveragePrice.deserialize (.obj [("Period", .str "Day"),
        ("Captured", .str "2018-06-02"), ("Code", .str "E10"),
        ("Price", .int 130)]) =
      .ok ⟨.str "E10", .day, .int 130, ⟨2018, 6, 2, 0, 0, 0⟩⟩ ∧
    AveragePrice.deserialize (.obj [("Period", .str "Year"),
        ("Captured", .str "June 2018"), ("Code", .str "E10"),
        ("Price", .int 130)]) =
      .ok ⟨.str "E10", .year, .int 130, ⟨2018, 6, 1, 0, 0, 0⟩⟩ := by
  refine ⟨?_, by rfl, by rfl⟩
  intro data s av hc hok
  have hj := get?_some_jsonIndex hc
  simp [AveragePrice.deserialize, bind, Except.bind] at hok
  rcases h1 : jsonIndex data "Period" with e | pv <;> rw [h1] at hok <;>
    simp at hok
  rcases h2 : Period.ofJson pv with e | per <;> rw [h2] at hok <;> simp at hok
  rw [hj] at hok
  simp at hok
  cases per <;> simp at hok
  case day =>
    rcases h3 : strptimeYMD s with _ | d <;> rw [h3] at hok <;> simp at hok
    rcases h4 : jsonIndex data "Code" with e | cv <;> rw [h4] at hok <;>
      simp at hok
    rcases h5 : jsonIndex data "Price" with e | pv2 <;> rw [h5] at hok <;>
      simp at hok
    rw [← hok]
    simp
  case week =>
    rcases h3 : strptimeYMD s with _ | d <;> rw [h3] at hok <;> simp at hok
    rcases h4 : jsonIndex data "Code" with e | cv <;> rw [h4] at hok <;>
      simp at hok
    rcases h5 : jsonIndex data "Price" with e | pv2 <;> rw [h5] at hok <;>
      simp at hok
    rw [← hok]
    simp
  case month =>
    rcases h3 : strptimeYMD s with _ | d <;> rw [h3] at hok <;> simp at hok
    rcases h4 : jsonIndex data "Code" with e | cv <;> rw [h4] at hok <;>
      simp at hok
    rcases h5 : jsonIndex data "Price" with e | pv2 <;> rw [h5] at hok <;>
      simp at hok
    rw [← hok]
    simp
  case year =>
    rcases h3 : strptimeBY s with _ | d <;> rw [h3] at hok <;> simp at hok
    rcases h4 : jsonIndex data "Code" with e | cv <;> rw [h4] at hok <;>
      simp at hok
    rcases h5 : jsonIndex data "Price" with e | pv2 <;> rw [h5] at hok <;>
      simp at hok
    rw [← hok]
    simp

/-- C8 witness: the per-period formats extracted from concrete Day and
Year deserialization runs. -/
theorem c8_average_price_formats_witness :
    strptimeYMD "2018-06-02" = some ⟨2018, 6, 2, 0, 0, 0⟩ ∧
    strptimeBY "June 2018" = some ⟨2018, 6, 1, 0, 0, 0⟩ :=
  ⟨(c8_average_price_formats.1
      (.obj [("Period", .str "Day"), ("Captured", .str "2018-06-02"),
        ("Code", .str "E10"), ("Price", .int 130)])
      "2018-06-02"
      ⟨.str "E10", .day, .int 130, ⟨2018, 6, 2, 0, 0, 0⟩⟩
      (by rfl) (by rfl)).2 (by decide),
   (c8_average_price_formats.1
      (.obj [("Period", .str "Year"), ("Captured", .str "June 2018"),
        ("Code", .str "E10"), ("Price", .int 130)])
      "June 2018"
      ⟨.str "E10", .year, .int 130, ⟨2018, 6, 1, 0, 0, 0⟩⟩
      (by rfl) (by rfl)).1 (by rfl)⟩

/-- C9: `Price.deserialize` returns an error (rather than a record with a
null field) whenever any of the keys `fueltype`, `price` or `lastupdated`
is absent, while absent `priceunit` and `stationcode` keys yield `none`
fields on an otherwise well-formed object. -/
theorem c9_price_required_keys :
    (∀ data : Json,
      (data.get? "fueltype" = none ∨ data.get? "price" = none ∨
       data.get? "lastupdated" = none) →
      ∃ e, Price.deserialize data = .error e) ∧
    (∀ (data ft pv : Json) (s : String),
      data.get? "fueltype" = some ft → data.get? "price" = some pv →
      data.get? "lastupdated" = some (.str s) →
      data.get? "priceunit" = none → data.get? "stationcode" = none →
      Price.deserialize data = .ok ⟨ft, pv,
        (match strptimeDMYHMS s with
         | some d => some d
         | none => strptimeYMDHMS s), none, none⟩) := by
  constructor
  · intro data hmiss
    cases h : Price.deserialize data with
    | error e => exact ⟨e, rfl⟩
    | ok pr =>
      obtain ⟨⟨v1, hv1⟩, ⟨v2, hv2⟩, ⟨v3, hv3⟩⟩ := price_deserialize_ok_keys h
      rcases hmiss with hm | hm | hm
      · rw [hm] at hv2; exact absurd hv2 (by simp)
      · rw [hm] at hv3; exact absurd hv3 (by simp)
      · rw [hm] at hv1; exact absurd hv1 (by simp)
  · intro data ft pv s h1 h2 h3 h4 h5
    have j1 := get?_some_jsonIndex h1
    have j2 := get?_some_jsonIndex h2
    have j3 := get?_some_jsonIndex h3
    simp [Price.deserialize, bind, Except.bind, j1, j2, j3, h5,
      Json.getPy, h4]

/-- C9 witness: an empty object fails, and an object carrying exactly the
three required keys succeeds with null optional fields. -/
theorem c9_price_required_keys_witness :
    (∃ e, Price.deserialize (.obj []) = .error e) ∧
    Price.deserialize (.obj [("fueltype", .str "E10"), ("price", .int 1),
        ("lastupdated", .str "02/06/2018 02:03:04")]) =
      .ok ⟨.str "E10", .int 1,
        (match strptimeDMYHMS "02/06/2018 02:03:04" with
         | some d => some d
         | none => strptimeYMDHMS "02/06/2018 02:03:04"), none, none⟩ :=
  ⟨c9_price_required_keys.1 (.obj []) (.inl rfl),
   c9_price_required_keys.2
     (.obj [("fueltype", .str "E10"), ("price", .int 1),
       ("lastupdated", .str "02/06/2018 02:03:04")])
     (.str "E10") (.int 1) "02/06/2018 02:03:04"
     (by rfl) (by rfl) (by rfl) (by rfl) (by rfl)⟩

/-- C10: a deserialized Station's `code` is the `int(...)` coercion of the
raw `code` value (the string `"123"` yields the integer 123), while the
station dict built by the nearby-prices join is keyed by the raw,
uncoerced `code` values taken from the JSON objects. -/
theorem c10_station_code_coercion :
    (∀ (data : Json) (st : StationT), Station.deserialize data = .ok st →
      ∃ raw, data.get? "code" = some raw ∧ pyInt raw = .ok st.code) ∧
    Station.deserialize (.obj [("brand", .str "B"), ("code", .str "123"),
        ("name", .str "N"), ("address", .str "A"),
        ("location", .obj [("latitude", .int 1), ("longitude", .int 2)])]) =
      .ok ⟨none, .str "B", 123, .str "N", .str "A", .int 1, .int 2⟩ ∧
    (∀ (sd : List Json) (smap : List (Json × StationT)),
      stations_dict sd = .ok smap →
      ∀ kv ∈ smap, ∃ s ∈ sd, s.get? "code" = some kv.1) := by
  refine ⟨fun data st h => station_code_from_raw h, by rfl, ?_⟩
  intro sd smap hok kv hkv
  rcases stations_dict_loop_keys hok kv hkv with h | h
  · simp at h
  · exact h

/-- C10 witness: the string-coded station above, plus its dict entry keyed
by the raw string. -/
theorem c10_station_code_coercion_witness :
    (∃ raw, (Json.obj [("brand", .str "B"), ("code", .str "123"),
        ("name", .str "N"), ("address", .str "A"),
        ("location", .obj [("latitude", .int 1),
          ("longitude", .int 2)])]).get? "code" = some raw ∧
      pyInt raw = .ok
        ((⟨none, .str "B", 123, .str "N", .str "A", .int 1, .int 2⟩ :
          StationT).code)) ∧
    (∃ s ∈ [Json.obj [("brand", .str "B"), ("code", .str "123"),
        ("name", .str "N"), ("address", .str "A"),
        ("location", .obj [("latitude", .int 1), ("longitude", .int 2)])]],
      s.get? "code" = some (Json.str "123")) :=
  ⟨c10_station_code_coercion.1
    (Json.obj [("brand", .str "B"), ("code", .str "123"),
      ("name", .str "N"), ("address", .str "A"),
      ("location", .obj [("latitude", .int 1), ("longitude", .int 2)])])
    ⟨none, .str "B", 123, .str "N", .str "A", .int 1, .int 2⟩ (by rfl),
   c10_station_code_coercion.2.2
    [Json.obj [("brand", .str "B"), ("code", .str "123"),
      ("name", .str "N"), ("address", .str "A"),
      ("location", .obj [("latitude", .int 1), ("longitude", .int 2)])]]
    [(Json.str "123",
      ⟨none, .str "B", 123, .str "N", .str "A", .int 1, .int 2⟩)]
    (by rfl)
    (Json.str "123",
      ⟨none, .str "B", 123, .str "N", .str "A", .int 1, .int 2⟩)
    (by simp)⟩

end NSWFuel
